import Mathlib

/-!
Shallow embedding of the LLM inference gateway (src/app/main.py).

The service is a FastAPI app that proxies requests to an Ollama backend.
Each outbound HTTP call is modelled by its observable outcome: either the
backend replied with a status code and a (parsed) payload, or the call
raised a network-level exception (connection error, timeout).  Handlers
are embedded as pure functions from those outcomes to the value the route
returns, with Python exception flow made explicit via `Except`.
-/

namespace Gateway

/-- Configured backend base URL (main.py line 52). -/
def OLLAMA_BASE_URL : String := "http://localhost:11434"

/-- Configured target model name (main.py line 53). -/
def MODEL_NAME : String := "gemma2:2b"

/-- Network-level exceptions an httpx call can raise:
`timeout` models `httpx.TimeoutException`; `connError` models any other
connection-level exception (connection refused, DNS failure, ...). -/
inductive NetExn where
  | timeout : NetExn
  | connError (msg : String) : NetExn
deriving Repr, DecidableEq

/-- Python exceptions that flow through a handler body:
`http` models `fastapi.HTTPException(status_code, detail)`; `net` models
an httpx exception escaping the call; `other` models any other exception. -/
inductive PyExn where
  | http (status : Nat) (detail : String) : PyExn
  | net (e : NetExn) : PyExn
  | other (msg : String) : PyExn
deriving Repr, DecidableEq

/-- Matching discipline of `except httpx.TimeoutException`: only the
network timeout is an instance; in particular `fastapi.HTTPException` is
NOT a subclass of `httpx.TimeoutException`. -/
def isTimeoutException : PyExn → Bool
  | .net .timeout => true
  | _ => false

/-- Matching discipline of `except HTTPException`. -/
def isHTTPException : PyExn → Bool
  | .http _ _ => true
  | _ => false

/-- Python `str(e)` for the exceptions above; for `fastapi.HTTPException`
starlette renders "status_code: detail". -/
def pyStr : PyExn → String
  | .http s d => toString s ++ ": " ++ d
  | .net .timeout => "timed out"
  | .net (.connError m) => m
  | .other m => m

/-- Observable outcome of one outbound HTTP call with payload type `p`:
the backend replied with a status code and body, or the call raised. -/
inductive CallOutcome (p : Type) where
  | reply (status : Nat) (payload : p) : CallOutcome p
  | raised (e : NetExn) : CallOutcome p
deriving Repr, DecidableEq

/-- Embedding of `check_ollama_health` (main.py lines 55-63): GET
/api/version, return `status == 200`; any exception is caught and yields
`false`. -/
def check_ollama_health : CallOutcome Unit → Bool
  | .reply status _ => status == 200
  | .raised _ => false

/-- One entry of the /api/tags `models` array: a `name` plus other JSON
keys the service never reads (kept opaque as key-value pairs). -/
structure TagEntry where
  name : String
  extra : List (String × String) := []
deriving Repr, DecidableEq

/-- Parsed JSON body of a /api/tags reply: the `models` key may be absent. -/
structure TagsPayload where
  models : Option (List TagEntry) := none
deriving Repr, DecidableEq

/-- Embedding of `get_available_models` (main.py lines 65-76): GET
/api/tags; on 200 return the `name` of each entry of `models` (defaulting
to the empty array when the key is absent); on any non-200 status return
the empty list; any exception is caught and yields the empty list. -/
def get_available_models : CallOutcome TagsPayload → List String
  | .reply status data =>
      if status == 200 then (data.models.getD []).map TagEntry.name else []
  | .raised _ => []

/-- Pydantic `HealthResponse` model (main.py lines 45-49). -/
structure HealthResponse where
  status : String
  message : String
  ollama_status : String
  available_models : List String
deriving Repr, DecidableEq

/-- Embedding of the `/health` route `health_check` (main.py lines
109-133).  It performs two independent backend calls — the version check
and the tags listing — and classifies from their outcomes. -/
def health_check (vOut : CallOutcome Unit) (tOut : CallOutcome TagsPayload) :
    HealthResponse :=
  let ollama_healthy := check_ollama_health vOut
  let available_models := get_available_models tOut
  if ollama_healthy && available_models.contains MODEL_NAME then
    { status := "healthy"
      message := "Service is running and model is available"
      ollama_status := "running"
      available_models := available_models }
  else if ollama_healthy then
    { status := "partial"
      message := "Ollama is running but " ++ MODEL_NAME ++ " is not available"
      ollama_status := "running"
      available_models := available_models }
  else
    { status := "unhealthy"
      message := "Ollama service is not responding"
      ollama_status := "not responding"
      available_models := available_models }

/-- Pydantic `InferenceRequest` model (main.py lines 20-25); sampling
parameters are modelled as rationals. -/
structure InferenceRequest where
  prompt : String
  max_tokens : Int := 512
  temperature : Rat := 7 / 10
  top_p : Rat := 9 / 10
  stream : Bool := false
deriving Repr, DecidableEq

/-- Pydantic `InferenceResponse` model (main.py lines 27-37). -/
structure InferenceResponse where
  response : String
  model : String
  created_at : String
  done : Bool
  total_duration : Option Int := none
  load_duration : Option Int := none
  prompt_eval_count : Option Int := none
  prompt_eval_duration : Option Int := none
  eval_count : Option Int := none
  eval_duration : Option Int := none
deriving Repr, DecidableEq

/-- The `options` object of the payload sent to /api/generate. -/
structure GenOptions where
  num_predict : Int
  temperature : Rat
  top_p : Rat
deriving Repr, DecidableEq

/-- The JSON payload the gateway sends to /api/generate. -/
structure GenPayload where
  model : String
  prompt : String
  stream : Bool
  options : GenOptions
deriving Repr, DecidableEq

/-- Embedding of the payload construction in `generate_inference`
(main.py lines 148-157). -/
def buildPayload (request : InferenceRequest) : GenPayload :=
  { model := MODEL_NAME
    prompt := request.prompt
    stream := request.stream
    options :=
      { num_predict := request.max_tokens
        temperature := request.temperature
        top_p := request.top_p } }

/-- Parsed JSON body of a 200 reply from /api/generate; every key may be
absent. -/
structure GenReply where
  response : Option String := none
  model : Option String := none
  created_at : Option String := none
  done : Option Bool := none
  total_duration : Option Int := none
  load_duration : Option Int := none
  prompt_eval_count : Option Int := none
  prompt_eval_duration : Option Int := none
  eval_count : Option Int := none
  eval_duration : Option Int := none
deriving Repr, DecidableEq

/-- An httpx response to /api/generate: raw body text (`response.text`)
and its JSON parse (`response.json()`). -/
structure GenHttpResp where
  text : String := ""
  json : GenReply := {}
deriving Repr, DecidableEq

/-- Embedding of the `InferenceResponse(...)` construction (main.py lines
176-187): `result.get` with the defaults used there; the six timing
fields are passed through as-is (absent stays absent). -/
def mkInferenceResponse (result : GenReply) : InferenceResponse :=
  { response := result.response.getD ""
    model := result.model.getD MODEL_NAME
    created_at := result.created_at.getD ""
    done := result.done.getD true
    total_duration := result.total_duration
    load_duration := result.load_duration
    prompt_eval_count := result.prompt_eval_count
    prompt_eval_duration := result.prompt_eval_duration
    eval_count := result.eval_count
    eval_duration := result.eval_duration }

/-- The final HTTP error a route produces (a `fastapi.HTTPException` that
escapes the handler). -/
structure HTTPError where
  status_code : Nat
  detail : String
deriving Repr, DecidableEq

/-- Embedding of the `try` block of `generate_inference` (main.py lines
146-187): build the payload, POST /api/generate; on non-200 raise
`HTTPException(status, "Ollama request failed: " + response.text)`; on a
network exception the exception propagates; on 200 build the response. -/
def inferTryBody (request : InferenceRequest)
    (genCall : GenPayload → CallOutcome GenHttpResp) :
    Except PyExn InferenceResponse :=
  match genCall (buildPayload request) with
  | .raised e => .error (.net e)
  | .reply status resp =>
      if status != 200 then
        .error (.http status ("Ollama request failed: " ++ resp.text))
      else
        .ok (mkInferenceResponse resp.json)

/-- Embedding of the `/inference` route `generate_inference` (main.py
lines 135-200).  The except chain is, in source order:
`except httpx.TimeoutException` then `except Exception`.  There is no
`except HTTPException: raise` clause, so the `HTTPException` raised for a
non-200 backend status is itself caught by `except Exception` and
rewritten to a 500. -/
def generate_inference (request : InferenceRequest)
    (vOut : CallOutcome Unit)
    (genCall : GenPayload → CallOutcome GenHttpResp) :
    Except HTTPError InferenceResponse :=
  if !check_ollama_health vOut then
    .error { status_code := 503, detail := "Ollama service is not available" }
  else
    match inferTryBody request genCall with
    | .ok r => .ok r
    | .error e =>
        if isTimeoutException e then
          .error { status_code := 504
                   detail := "Request timed out. The model might be loading or the prompt is too complex." }
        else
          .error { status_code := 500
                   detail := "Internal server error: " ++ pyStr e }

/-- Status code of a handler result, `none` on success. -/
def gatewayStatus {α : Type} : Except HTTPError α → Option Nat
  | .error e => some e.status_code
  | .ok _ => none

/-- The `details` object of a /api/show reply: the service reads only its
`name` key (which may be absent); other keys are opaque key-value pairs. -/
structure DetailsObj where
  name : Option String := none
  extra : List (String × String) := []
deriving Repr, DecidableEq

/-- Parsed JSON body of a /api/show reply.  `name` models a possible
top-level "name" key of the JSON object; the handler never reads it. -/
structure ShowPayload where
  name : Option String := none
  size : Option Int := none
  digest : Option String := none
  details : Option DetailsObj := none
deriving Repr, DecidableEq

/-- An httpx response to /api/show: raw body text and its JSON parse. -/
structure ShowHttpResp where
  text : String := ""
  json : ShowPayload := {}
deriving Repr, DecidableEq

/-- Pydantic `ModelInfo` model (main.py lines 39-43). -/
structure ModelInfo where
  name : String
  size : Int
  digest : String
  details : DetailsObj
deriving Repr, DecidableEq

/-- A single-quote character, for building Python f-string details. -/
def sq : String := String.singleton (Char.ofNat 39)

/-- Detail message of the 404 raised by `get_model_info` (main.py line
222): the f-string `Model '<model_name>' not found`. -/
def notFoundDetail (model_name : String) : String :=
  "Model " ++ sq ++ model_name ++ sq ++ " not found"

/-- Embedding of the `ModelInfo(...)` construction (main.py lines
231-236): `name` comes from `data.get("details", nil).get("name",
model_name)` — the `name` key inside `details`, not the top-level one. -/
def mkModelInfo (model_name : String) (data : ShowPayload) : ModelInfo :=
  { name := ((data.details.getD {}).name).getD model_name
    size := data.size.getD 0
    digest := data.digest.getD ""
    details := data.details.getD {} }

/-- Embedding of the `try` block of `get_model_info` (main.py lines
211-236): POST /api/show; 404 raises `HTTPException(404, ...)`, any other
non-200 raises `HTTPException(status, ...)`, 200 builds the `ModelInfo`;
a network exception propagates. -/
def getModelTryBody (model_name : String)
    (sOut : CallOutcome ShowHttpResp) : Except PyExn ModelInfo :=
  match sOut with
  | .raised e => .error (.net e)
  | .reply status resp =>
      if status == 404 then
        .error (.http 404 (notFoundDetail model_name))
      else if status != 200 then
        .error (.http status "Failed to get model information")
      else
        .ok (mkModelInfo model_name resp.json)

/-- Embedding of the `/model/{model_name}` route `get_model_info`
(main.py lines 208-245).  Its except chain is `except HTTPException:
raise` then `except Exception`, so an `HTTPException` raised in the body
escapes unchanged and everything else becomes a 500. -/
def get_model_info (model_name : String)
    (sOut : CallOutcome ShowHttpResp) : Except HTTPError ModelInfo :=
  match getModelTryBody model_name sOut with
  | .ok m => .ok m
  | .error (.http s d) => .error { status_code := s, detail := d }
  | .error e =>
      .error { status_code := 500
               detail := "Internal server error: " ++ pyStr e }

/-- Embedding of `ensure_model_loaded` (main.py lines 78-97): POST a
one-token warmup generation; return `status == 200`; any exception is
caught and yields `false`. -/
def ensure_model_loaded : CallOutcome Unit → Bool
  | .reply status _ => status == 200
  | .raised _ => false

/-- Number of polling attempts of the startup loop (main.py line 253). -/
def max_retries : Nat := 30

/-- Observable steps of `startup_event`, in order: one version-check poll
(with its boolean result), one 2-second sleep, the /api/tags call, and
the warmup generate call (with its boolean result). -/
inductive StartupEvent where
  | versionCheck (ok : Bool) : StartupEvent
  | sleepSecs (n : Nat) : StartupEvent
  | tagsCall : StartupEvent
  | warmupGenerate (ok : Bool) : StartupEvent
deriving Repr, DecidableEq

/-- Embedding of the `for i in range(max_retries)` polling loop (main.py
lines 254-259), started at index `i` with `fuel` iterations left: returns
the trace of steps and whether the loop exited via `break` (backend
reachable).  Each failed attempt logs and then sleeps 2 seconds; fuel
running out is the for-else branch. -/
def startupPoll (checks : Nat → CallOutcome Unit) :
    Nat → Nat → List StartupEvent × Bool
  | _, 0 => ([], false)
  | i, fuel + 1 =>
      if check_ollama_health (checks i) then
        ([StartupEvent.versionCheck true], true)
      else
        let rest := startupPoll checks (i + 1) fuel
        (StartupEvent.versionCheck false :: StartupEvent.sleepSecs 2 :: rest.1,
         rest.2)

/-- Environment a run of `startup_event` observes: the outcome of the
i-th version poll, of the single tags call, and of the warmup generate
call. -/
structure StartupEnv where
  checks : Nat → CallOutcome Unit
  tags : CallOutcome TagsPayload
  warmup : CallOutcome Unit

/-- Embedding of the `startup_event` hook (main.py lines 247-276),
returning the trace of observable steps.  The result type admits an
escaping exception, but the body never raises: every helper it calls
catches its own exceptions.  If the polling loop exhausts its retries the
for-else branch logs and returns — no tags or generate call is made.
Otherwise the tags call runs; the warmup generate call is issued exactly
when the target model is listed, and its failure is only logged. -/
def startup_event (env : StartupEnv) : Except PyExn (List StartupEvent) :=
  let poll := startupPoll env.checks 0 max_retries
  if poll.2 then
    let models := get_available_models env.tags
    if models.contains MODEL_NAME then
      .ok (poll.1 ++
        [StartupEvent.tagsCall,
         StartupEvent.warmupGenerate (ensure_model_loaded env.warmup)])
    else
      .ok (poll.1 ++ [StartupEvent.tagsCall])
  else
    .ok poll.1

/-- Test for a version-check step. -/
def isVersionCheck : StartupEvent → Bool
  | .versionCheck _ => true
  | _ => false

/-- Test for a warmup generate step. -/
def isWarmupGenerate : StartupEvent → Bool
  | .warmupGenerate _ => true
  | _ => false

/-- Number of version-check polls in a trace. -/
def countChecks (t : List StartupEvent) : Nat := t.countP isVersionCheck

/-- Expected trace of one failed polling attempt: a failed version check
followed by a 2-second sleep. -/
def failedAttempt : List StartupEvent :=
  [StartupEvent.versionCheck false, StartupEvent.sleepSecs 2]

/-- Trace of steps a `startup_event` run produces (the empty trace if it
were to raise, which `startup_event_never_raises` rules out). -/
def startupTrace (env : StartupEnv) : List StartupEvent :=
  match startup_event env with
  | .ok t => t
  | .error _ => []

/- ------------------------------------------------------------------ -/
/- Theorems                                                            -/
/- ------------------------------------------------------------------ -/

/-- Claim C1 (counterexample): the claim asserts that whenever the health
check reports "unhealthy" the returned available_models list is empty.
With the version call failing but the tags call succeeding with the
target model listed, `health_check` reports "unhealthy" with a non-empty
available_models list, refuting the claim as stated. -/
theorem C1_counterexample :
    (health_check (CallOutcome.raised (NetExn.connError "refused"))
        (CallOutcome.reply 200 { models := some [{ name := "gemma2:2b" }] })).status
      = "unhealthy" ∧
    (health_check (CallOutcome.raised (NetExn.connError "refused"))
        (CallOutcome.reply 200 { models := some [{ name := "gemma2:2b" }] })).available_models
      ≠ [] := by
  exact ⟨rfl, by decide⟩

/-- Claim C1 (amended): the health check reports "healthy" iff the
version check succeeds and the target model is in the list returned by
the tags call, "partial" iff the version check succeeds and the target
model is not in that list, and "unhealthy" iff the version check fails;
the returned available_models is always the result of the independent
tags call, which is empty whenever that call fails or returns a non-200
status (in particular whenever the backend is wholly unreachable), but
not necessarily when only the version check fails. -/
theorem C1_health_check_classification (vOut : CallOutcome Unit)
    (tOut : CallOutcome TagsPayload) :
    ((health_check vOut tOut).status = "healthy" ↔
      (check_ollama_health vOut = true ∧
        MODEL_NAME ∈ get_available_models tOut)) ∧
    ((health_check vOut tOut).status = "partial" ↔
      (check_ollama_health vOut = true ∧
        MODEL_NAME ∉ get_available_models tOut)) ∧
    ((health_check vOut tOut).status = "unhealthy" ↔
      check_ollama_health vOut = false) ∧
    (health_check vOut tOut).available_models = get_available_models tOut ∧
    (∀ s p, s ≠ 200 → get_available_models (CallOutcome.reply s p) = []) ∧
    (∀ e, get_available_models (CallOutcome.raised e) = []) := by
  refine ⟨?_, ?_, ?_, ?_, fun s p hs => ?_, fun e => rfl⟩
  case refine_5 => simp [get_available_models, hs]
  all_goals
    cases hv : check_ollama_health vOut <;>
      by_cases hm : MODEL_NAME ∈ get_available_models tOut <;>
        simp [health_check, hv, hm]

/-- Claim C1 (witness): the classification evaluated at a reachable
backend listing the target model. -/
theorem C1_witness :
    ((health_check (CallOutcome.reply 200 ())
        (CallOutcome.reply 200 { models := some [{ name := "gemma2:2b" }] })).status
      = "healthy" ↔
      (check_ollama_health (CallOutcome.reply 200 ()) = true ∧
        MODEL_NAME ∈ get_available_models
          (CallOutcome.reply 200 { models := some [{ name := "gemma2:2b" }] }))) ∧
    ((health_check (CallOutcome.reply 200 ())
        (CallOutcome.reply 200 { models := some [{ name := "gemma2:2b" }] })).status
      = "partial" ↔
      (check_ollama_health (CallOutcome.reply 200 ()) = true ∧
        MODEL_NAME ∉ get_available_models
          (CallOutcome.reply 200 { models := some [{ name := "gemma2:2b" }] }))) ∧
    ((health_check (CallOutcome.reply 200 ())
        (CallOutcome.reply 200 { models := some [{ name := "gemma2:2b" }] })).status
      = "unhealthy" ↔
      check_ollama_health (CallOutcome.reply 200 ()) = false) ∧
    (health_check (CallOutcome.reply 200 ())
        (CallOutcome.reply 200 { models := some [{ name := "gemma2:2b" }] })).available_models
      = get_available_models
          (CallOutcome.reply 200 { models := some [{ name := "gemma2:2b" }] }) ∧
    (∀ s p, s ≠ 200 → get_available_models (CallOutcome.reply s p) = []) ∧
    (∀ e, get_available_models (CallOutcome.raised e) = []) :=
  C1_health_check_classification (CallOutcome.reply 200 ())
    (CallOutcome.reply 200 { models := some [{ name := "gemma2:2b" }] })

/-- Claim C2 (code bug): the spec requires a non-200 backend status to be
propagated verbatim as the gateway status.  With a reachable backend
answering 502 to the generate call, the handler raises
`HTTPException(502, ...)` inside its `try`, but — lacking the
`except HTTPException: raise` guard that `get_model_info` has — that
exception is caught by the handler's own `except Exception` clause and
rewritten to a 500, so the client sees 500, not 502. -/
theorem C2_backend_status_rewritten_to_500 :
    gatewayStatus (generate_inference { prompt := "hi" }
        (CallOutcome.reply 200 ())
        (fun _ => CallOutcome.reply 502 { text := "Bad Gateway" })) = some 500 ∧
    gatewayStatus (generate_inference { prompt := "hi" }
        (CallOutcome.reply 200 ())
        (fun _ => CallOutcome.reply 502 { text := "Bad Gateway" })) ≠ some 502 := by
  exact ⟨rfl, by decide⟩

/-- Claim C3 (counterexample): the claim asserts the payload sent to the
backend always has streaming disabled; for a request with stream set to
true, the constructed payload has stream true (line 151 forwards
`request.stream` verbatim). -/
theorem C3_counterexample :
    (buildPayload { prompt := "hi", stream := true }).stream = true := rfl

/-- Claim C3 (amended): the backend payload constructed by the gateway
has model equal to the configured target model name, prompt equal to
request.prompt verbatim, options num_predict/temperature/top_p equal to
the request's sampling fields, and stream equal to `request.stream`
(forwarded verbatim — false only by default, not unconditionally). -/
theorem C3_payload_construction (request : InferenceRequest) :
    (buildPayload request).model = MODEL_NAME ∧
    (buildPayload request).prompt = request.prompt ∧
    (buildPayload request).stream = request.stream ∧
    (buildPayload request).options =
      { num_predict := request.max_tokens
        temperature := request.temperature
        top_p := request.top_p } :=
  ⟨rfl, rfl, rfl, rfl⟩

/-- Claim C3 (witness): payload construction evaluated at a concrete
default request. -/
theorem C3_witness :
    (buildPayload { prompt := "hello" }).model = MODEL_NAME ∧
    (buildPayload { prompt := "hello" }).prompt = "hello" ∧
    (buildPayload { prompt := "hello" }).stream = false ∧
    (buildPayload { prompt := "hello" }).options =
      { num_predict := 512, temperature := 7 / 10, top_p := 9 / 10 } :=
  C3_payload_construction { prompt := "hello" }

/-- Claim C6: for every non-200 backend reply (and for every raised
exception) the models listing is the empty list — never an error — and
for a 200 reply it is exactly the name of each entry of the payload's
models array, in order. -/
theorem C6_list_models_spec :
    (∀ s p, s ≠ 200 → get_available_models (CallOutcome.reply s p) = []) ∧
    (∀ e, get_available_models (CallOutcome.raised e) = []) ∧
    (∀ p, get_available_models (CallOutcome.reply 200 p) =
      (p.models.getD []).map TagEntry.name) := by
  refine ⟨fun s p hs => ?_, fun e => rfl, fun p => rfl⟩
  have hb : (s == 200) = false := by simpa using hs
  simp [get_available_models, hb]

/-- Claim C6 (witness): the listing evaluated at a 500 reply, at a raised
timeout, and at a 200 reply with two models. -/
theorem C6_witness :
    get_available_models
        (CallOutcome.reply 500 { models := some [{ name := "m" }] }) = [] ∧
    get_available_models (CallOutcome.raised NetExn.timeout) = [] ∧
    get_available_models
        (CallOutcome.reply 200 { models := some [{ name := "a" }, { name := "b" }] })
      = ["a", "b"] :=
  ⟨C6_list_models_spec.1 500 { models := some [{ name := "m" }] } (by decide),
   C6_list_models_spec.2.1 NetExn.timeout,
   C6_list_models_spec.2.2 { models := some [{ name := "a" }, { name := "b" }] }⟩

/-- Claim C7: the show-model route maps a backend 404 to a 404 error
carrying the not-found detail, any other non-200 backend status to an
error carrying that status verbatim with the generic detail, and a 200
reply to the constructed `ModelInfo`; the 404 error differs from every
generic backend error (their statuses differ). -/
theorem C7_get_model_info_spec (model_name : String) (resp : ShowHttpResp) :
    get_model_info model_name (CallOutcome.reply 404 resp) =
      .error { status_code := 404, detail := notFoundDetail model_name } ∧
    (∀ s, s ≠ 404 → s ≠ 200 →
      get_model_info model_name (CallOutcome.reply s resp) =
        .error { status_code := s, detail := "Failed to get model information" }) ∧
    get_model_info model_name (CallOutcome.reply 200 resp) =
      .ok (mkModelInfo model_name resp.json) ∧
    (∀ s, s ≠ 404 →
      ({ status_code := s, detail := "Failed to get model information" } : HTTPError) ≠
        { status_code := 404, detail := notFoundDetail model_name }) := by
  refine ⟨rfl, fun s hs4 hs2 => ?_, rfl,
    fun s hs4 h => hs4 (congrArg HTTPError.status_code h)⟩
  simp [get_model_info, getModelTryBody, hs4, hs2]

/-- Claim C7 (witness): the show-model route evaluated for the model name
"nonexistent" at a 404 reply, a 500 reply, and a 200 reply. -/
theorem C7_witness :
    get_model_info "nonexistent" (CallOutcome.reply 404 { }) =
      .error { status_code := 404, detail := notFoundDetail "nonexistent" } ∧
    get_model_info "nonexistent" (CallOutcome.reply 500 { }) =
      .error { status_code := 500, detail := "Failed to get model information" } ∧
    get_model_info "nonexistent" (CallOutcome.reply 200 { }) =
      .ok (mkModelInfo "nonexistent" ({ } : ShowHttpResp).json) ∧
    ({ status_code := 500, detail := "Failed to get model information" } : HTTPError) ≠
      { status_code := 404, detail := notFoundDetail "nonexistent" } :=
  have h := C7_get_model_info_spec "nonexistent" { }
  ⟨h.1, h.2.1 500 (by decide) (by decide), h.2.2.1,
   h.2.2.2 500 (by decide)⟩

/-- When the reachability pre-check passes and the generate call replies
200, the inference handler returns the response built from the parsed
backend payload. -/
theorem generate_inference_success (request : InferenceRequest)
    (vOut : CallOutcome Unit)
    (genCall : GenPayload → CallOutcome GenHttpResp)
    (resp : GenHttpResp)
    (hv : check_ollama_health vOut = true)
    (hg : genCall (buildPayload request) = CallOutcome.reply 200 resp) :
    generate_inference request vOut genCall =
      .ok (mkInferenceResponse resp.json) := by
  simp [generate_inference, hv, inferTryBody, hg]

/-- Claim C4: if the reachability pre-check passes and the backend
replies 200 with a well-formed payload whose response field is the string
s, the handler succeeds and the returned text equals s exactly. -/
theorem C4_response_text_exact (request : InferenceRequest)
    (vOut : CallOutcome Unit)
    (genCall : GenPayload → CallOutcome GenHttpResp)
    (resp : GenHttpResp) (s : String)
    (hv : check_ollama_health vOut = true)
    (hg : genCall (buildPayload request) = CallOutcome.reply 200 resp)
    (hr : resp.json.response = some s) :
    generate_inference request vOut genCall =
      .ok (mkInferenceResponse resp.json) ∧
    (mkInferenceResponse resp.json).response = s :=
  ⟨generate_inference_success request vOut genCall resp hv hg,
   by simp [mkInferenceResponse, hr]⟩

/-- Claim C4 (witness): a backend reply whose response field is "hello"
yields exactly "hello". -/
theorem C4_witness :
    generate_inference { prompt := "hi" } (CallOutcome.reply 200 ())
        (fun _ => CallOutcome.reply 200 { json := { response := some "hello" } }) =
      .ok (mkInferenceResponse { response := some "hello" }) ∧
    (mkInferenceResponse { response := some "hello" }).response = "hello" :=
  C4_response_text_exact { prompt := "hi" } (CallOutcome.reply 200 ())
    (fun _ => CallOutcome.reply 200 { json := { response := some "hello" } })
    { json := { response := some "hello" } } "hello" rfl rfl rfl

/-- Claim C5: on a backend 200 reply each of the six optional timing and
usage fields of the returned response equals the corresponding field of
the backend payload as an Option — absent stays absent (none, not zero)
and present stays present with the same value, including 0. -/
theorem C5_timing_passthrough (request : InferenceRequest)
    (vOut : CallOutcome Unit)
    (genCall : GenPayload → CallOutcome GenHttpResp)
    (resp : GenHttpResp)
    (hv : check_ollama_health vOut = true)
    (hg : genCall (buildPayload request) = CallOutcome.reply 200 resp) :
    generate_inference request vOut genCall =
      .ok (mkInferenceResponse resp.json) ∧
    (mkInferenceResponse resp.json).total_duration = resp.json.total_duration ∧
    (mkInferenceResponse resp.json).load_duration = resp.json.load_duration ∧
    (mkInferenceResponse resp.json).prompt_eval_count = resp.json.prompt_eval_count ∧
    (mkInferenceResponse resp.json).prompt_eval_duration = resp.json.prompt_eval_duration ∧
    (mkInferenceResponse resp.json).eval_count = resp.json.eval_count ∧
    (mkInferenceResponse resp.json).eval_duration = resp.json.eval_duration :=
  ⟨generate_inference_success request vOut genCall resp hv hg,
   rfl, rfl, rfl, rfl, rfl, rfl⟩

/-- Claim C5 (witness): a payload carrying total_duration 0 and eval
count 7 with the other four fields absent maps to present-with-0,
present-with-7 and four absences. -/
theorem C5_witness :
    generate_inference { prompt := "hi" } (CallOutcome.reply 200 ())
        (fun _ => CallOutcome.reply 200
          { json := { total_duration := some 0, eval_count := some 7 } }) =
      .ok (mkInferenceResponse { total_duration := some 0, eval_count := some 7 }) ∧
    (mkInferenceResponse { total_duration := some 0, eval_count := some 7 }).total_duration
      = some 0 ∧
    (mkInferenceResponse { total_duration := some 0, eval_count := some 7 }).load_duration
      = none ∧
    (mkInferenceResponse { total_duration := some 0, eval_count := some 7 }).prompt_eval_count
      = none ∧
    (mkInferenceResponse { total_duration := some 0, eval_count := some 7 }).prompt_eval_duration
      = none ∧
    (mkInferenceResponse { total_duration := some 0, eval_count := some 7 }).eval_count
      = some 7 ∧
    (mkInferenceResponse { total_duration := some 0, eval_count := some 7 }).eval_duration
      = none :=
  C5_timing_passthrough { prompt := "hi" } (CallOutcome.reply 200 ())
    (fun _ => CallOutcome.reply 200
      { json := { total_duration := some 0, eval_count := some 7 } })
    { json := { total_duration := some 0, eval_count := some 7 } } rfl rfl

/-- Claim C9: a backend 200 reply missing the non-optional fields does
not make the handler fail; the missing response defaults to the empty
string, the missing model to the configured target model name, the
missing created_at to the empty string, and the missing done to true. -/
theorem C9_missing_fields_default (request : InferenceRequest)
    (vOut : CallOutcome Unit)
    (genCall : GenPayload → CallOutcome GenHttpResp)
    (resp : GenHttpResp)
    (hv : check_ollama_health vOut = true)
    (hg : genCall (buildPayload request) = CallOutcome.reply 200 resp) :
    generate_inference request vOut genCall =
      .ok (mkInferenceResponse resp.json) ∧
    (resp.json.response = none → (mkInferenceResponse resp.json).response = "") ∧
    (resp.json.model = none → (mkInferenceResponse resp.json).model = MODEL_NAME) ∧
    (resp.json.created_at = none → (mkInferenceResponse resp.json).created_at = "") ∧
    (resp.json.done = none → (mkInferenceResponse resp.json).done = true) := by
  refine ⟨generate_inference_success request vOut genCall resp hv hg,
    fun h => ?_, fun h => ?_, fun h => ?_, fun h => ?_⟩ <;>
    simp [mkInferenceResponse, h]

/-- Claim C9 (witness): a 200 reply whose JSON object is empty yields a
successful response with the four defaults. -/
theorem C9_witness :
    generate_inference { prompt := "hi" } (CallOutcome.reply 200 ())
        (fun _ => CallOutcome.reply 200 { }) =
      .ok (mkInferenceResponse { }) ∧
    (mkInferenceResponse { }).response = "" ∧
    (mkInferenceResponse { }).model = MODEL_NAME ∧
    (mkInferenceResponse { }).created_at = "" ∧
    (mkInferenceResponse { }).done = true :=
  have h := C9_missing_fields_default { prompt := "hi" } (CallOutcome.reply 200 ())
    (fun _ => CallOutcome.reply 200 { }) { } rfl rfl
  ⟨h.1, h.2.1 rfl, h.2.2.1 rfl, h.2.2.2.1 rfl, h.2.2.2.2 rfl⟩

/-- Claim C10: on a backend 200 reply to the show-model call the route
returns the constructed `ModelInfo`, whose name comes from the name key
inside the payload's details object — never from a top-level name key —
defaulting to the requested model name when details or its name key is
absent; size defaults to 0, digest to the empty string, and details to
the empty object when the corresponding fields are absent. -/
theorem C10_model_info_fields (model_name : String) (p : ShowPayload)
    (txt : String) :
    get_model_info model_name (CallOutcome.reply 200 { text := txt, json := p }) =
      .ok (mkModelInfo model_name p) ∧
    (∀ d nm, p.details = some d → d.name = some nm →
      (mkModelInfo model_name p).name = nm) ∧
    (∀ v, mkModelInfo model_name { p with name := v } = mkModelInfo model_name p) ∧
    (p.details = none →
      (mkModelInfo model_name p).name = model_name ∧
      (mkModelInfo model_name p).details = { }) ∧
    (∀ d, p.details = some d → d.name = none →
      (mkModelInfo model_name p).name = model_name) ∧
    (p.size = none → (mkModelInfo model_name p).size = 0) ∧
    (p.digest = none → (mkModelInfo model_name p).digest = "") := by
  refine ⟨rfl, fun d nm hd hn => ?_, fun v => rfl, fun hd => ?_,
    fun d hd hn => ?_, fun hs => ?_, fun hd => ?_⟩ <;>
    simp_all [mkModelInfo]

/-- Claim C10 (witness): a payload with a top-level name "top", details
name "inner", and absent size and digest, requested as "asked": the
resulting name is "inner", not "top", size is 0 and digest is empty; an
all-absent payload yields the requested name and the empty details
object. -/
theorem C10_witness :
    get_model_info "asked" (CallOutcome.reply 200
        { text := ""
          json := { name := some "top"
                    details := some { name := some "inner" } } }) =
      .ok (mkModelInfo "asked"
        { name := some "top", details := some { name := some "inner" } }) ∧
    (mkModelInfo "asked"
        { name := some "top", details := some { name := some "inner" } }).name
      = "inner" ∧
    mkModelInfo "asked"
        { name := some "top", details := some { name := some "inner" } }
      = mkModelInfo "asked"
        { name := none, details := some { name := some "inner" } } ∧
    (mkModelInfo "asked" { }).name = "asked" ∧
    (mkModelInfo "asked" { }).details = { } ∧
    (mkModelInfo "asked"
        { name := some "top", details := some { name := some "inner" } }).size = 0 ∧
    (mkModelInfo "asked"
        { name := some "top", details := some { name := some "inner" } }).digest = "" :=
  have h1 := C10_model_info_fields "asked"
    { name := some "top", details := some { name := some "inner" } } ""
  have h2 := C10_model_info_fields "asked"
    { name := none, details := some { name := some "inner" } } ""
  have h3 := C10_model_info_fields "asked" { } ""
  ⟨h1.1, h1.2.1 { name := some "inner" } "inner" rfl rfl,
   h2.2.2.1 (some "top"),
   (h3.2.2.2.1 rfl).1, (h3.2.2.2.1 rfl).2,
   h1.2.2.2.2.2.1 rfl, h1.2.2.2.2.2.2 rfl⟩

/-- When every version poll fails, the polling loop runs through all its
fuel, producing one failed attempt (check then 2-second sleep) per
iteration, and reports the backend as not reachable. -/
theorem startupPoll_all_fail (checks : Nat → CallOutcome Unit)
    (h : ∀ i, check_ollama_health (checks i) = false) :
    ∀ fuel i, startupPoll checks i fuel =
      ((List.replicate fuel failedAttempt).flatten, false)
  | 0, _ => by simp [startupPoll]
  | fuel + 1, i => by
      simp [startupPoll, h i, startupPoll_all_fail checks h fuel (i + 1),
        List.replicate_succ, failedAttempt]

/-- If the first successful version poll is the k-th attempt (0-based)
and there is fuel to reach it, the loop breaks there: it reports the
backend reachable and its trace holds exactly k + 1 version checks. -/
theorem startupPoll_first_success (checks : Nat → CallOutcome Unit) :
    ∀ fuel i k, k < fuel →
      (∀ j, j < k → check_ollama_health (checks (i + j)) = false) →
      check_ollama_health (checks (i + k)) = true →
      (startupPoll checks i fuel).2 = true ∧
      countChecks (startupPoll checks i fuel).1 = k + 1
  | 0, _, k, hlt, _, _ => absurd hlt (Nat.not_lt_zero k)
  | fuel + 1, i, 0, _, _, hk => by
      have hk0 : check_ollama_health (checks i) = true := by simpa using hk
      simp [startupPoll, hk0, countChecks, isVersionCheck]
  | fuel + 1, i, k + 1, hlt, hprev, hk => by
      have h0 : check_ollama_health (checks i) = false := by
        simpa using hprev 0 (Nat.succ_pos k)
      have ih := startupPoll_first_success checks fuel (i + 1) k
        (Nat.lt_of_succ_lt_succ hlt)
        (fun j hj => by
          have hpj := hprev (j + 1) (Nat.succ_lt_succ hj)
          have e : i + (j + 1) = i + 1 + j := by omega
          rw [e] at hpj; exact hpj)
        (by
          have e : i + (k + 1) = i + 1 + k := by omega
          rw [e] at hk; exact hk)
      refine ⟨?_, ?_⟩
      · simp [startupPoll, h0, ih.1]
      · simp only [startupPoll, h0, Bool.false_eq_true, if_false,
          countChecks, List.countP_cons]
        have hc := ih.2
        simp only [countChecks] at hc
        simp [isVersionCheck, hc]

/-- The startup hook never lets an exception escape: it always returns
its trace of observable steps. -/
theorem startup_event_never_raises (env : StartupEnv) :
    startup_event env = .ok (startupTrace env) := by
  have hex : ∃ t, startup_event env = Except.ok t := by
    simp only [startup_event]
    split
    · split
      · exact ⟨_, rfl⟩
      · exact ⟨_, rfl⟩
    · exact ⟨_, rfl⟩
  obtain ⟨t, ht⟩ := hex
  simp [startupTrace, ht]

/-- Claim C8: startup never raises an unhandled failure (it always
returns its trace); if the backend never becomes reachable the trace is
exactly thirty failed attempts each followed by a 2-second sleep — so
exactly `max_retries` polls — after which the exhausted-retries branch
returns without any tags call and without any warmup generate call; and
if the first successful poll is attempt k (k < max_retries), polling
stops there with exactly k + 1 polls, whatever the tags call returns. -/
theorem C8_startup_spec (env : StartupEnv) :
    (startup_event env).isOk = true ∧
    startup_event env = .ok (startupTrace env) ∧
    ((∀ i, check_ollama_health (env.checks i) = false) →
      startupTrace env = (List.replicate max_retries failedAttempt).flatten ∧
      countChecks (startupTrace env) = max_retries ∧
      (startupTrace env).countP isWarmupGenerate = 0 ∧
      StartupEvent.tagsCall ∉ startupTrace env) ∧
    (∀ k, k < max_retries →
      (∀ j, j < k → check_ollama_health (env.checks j) = false) →
      check_ollama_health (env.checks k) = true →
      countChecks (startupTrace env) = k + 1) := by
  refine ⟨by rw [startup_event_never_raises env]; rfl,
    startup_event_never_raises env, fun hall => ?_, fun k hk hprev hsucc => ?_⟩
  · have hp := startupPoll_all_fail env.checks hall max_retries 0
    have hse : startup_event env =
        .ok ((List.replicate max_retries failedAttempt).flatten) := by
      simp [startup_event, hp]
    have htr : startupTrace env = (List.replicate max_retries failedAttempt).flatten := by
      simp [startupTrace, hse]
    rw [htr]
    exact ⟨rfl, by decide, by decide, by decide⟩
  · have hp := startupPoll_first_success env.checks max_retries 0 k hk
      (fun j hj => by simpa using hprev j hj) (by simpa using hsucc)
    by_cases hmem : MODEL_NAME ∈ get_available_models env.tags
    · have hse : startup_event env =
          .ok ((startupPoll env.checks 0 max_retries).1 ++
            [StartupEvent.tagsCall,
             StartupEvent.warmupGenerate (ensure_model_loaded env.warmup)]) := by
        simp [startup_event, hp.1, hmem]
      have htr := Except.ok.inj ((startup_event_never_raises env).symm.trans hse)
      rw [htr, countChecks, List.countP_append]
      have h2 : List.countP isVersionCheck
          [StartupEvent.tagsCall,
           StartupEvent.warmupGenerate (ensure_model_loaded env.warmup)] = 0 := by
        cases ensure_model_loaded env.warmup <;> rfl
      rw [h2, Nat.add_zero]
      exact hp.2
    · have hse : startup_event env =
          .ok ((startupPoll env.checks 0 max_retries).1 ++ [StartupEvent.tagsCall]) := by
        simp [startup_event, hp.1, hmem]
      have htr := Except.ok.inj ((startup_event_never_raises env).symm.trans hse)
      rw [htr, countChecks, List.countP_append]
      have h2 : List.countP isVersionCheck [StartupEvent.tagsCall] = 0 := rfl
      rw [h2, Nat.add_zero]
      exact hp.2

/-- Environment in which the backend never answers any call. -/
def envNeverUp : StartupEnv :=
  { checks := fun _ => CallOutcome.raised NetExn.timeout
    tags := CallOutcome.raised NetExn.timeout
    warmup := CallOutcome.raised NetExn.timeout }

/-- Environment in which the backend becomes reachable on the third
poll (index 2) and then lists the target model. -/
def envUpAtTwo : StartupEnv :=
  { checks := fun i =>
      if i < 2 then CallOutcome.raised NetExn.timeout else CallOutcome.reply 200 ()
    tags := CallOutcome.reply 200 { models := some [{ name := "gemma2:2b" }] }
    warmup := CallOutcome.reply 200 () }

/-- Claim C8 (witness): with a backend that never answers, startup
returns a trace of exactly thirty failed attempts with their sleeps and
no tags or warmup call; with a backend reachable on the third poll, the
trace holds exactly three version checks. -/
theorem C8_witness :
    (startup_event envNeverUp).isOk = true ∧
    startup_event envNeverUp = .ok (startupTrace envNeverUp) ∧
    startupTrace envNeverUp = (List.replicate max_retries failedAttempt).flatten ∧
    countChecks (startupTrace envNeverUp) = max_retries ∧
    (startupTrace envNeverUp).countP isWarmupGenerate = 0 ∧
    StartupEvent.tagsCall ∉ startupTrace envNeverUp ∧
    countChecks (startupTrace envUpAtTwo) = 3 := by
  have h := C8_startup_spec envNeverUp
  have hall := h.2.2.1 (fun i => rfl)
  have h2 := (C8_startup_spec envUpAtTwo).2.2.2 2 (by decide)
    (fun j hj => by
      have hj2 : j = 0 ∨ j = 1 := by omega
      rcases hj2 with hj0 | hj1
      · rw [hj0]; rfl
      · rw [hj1]; rfl)
    rfl
  exact ⟨h.1, h.2.1, hall.1, hall.2.1, hall.2.2.1, hall.2.2.2, h2⟩

end Gateway
